import Mathlib

/-!
Shallow embedding of the copilot-sdk-service core: model-path resolution
(model-config, two variants), the credential cache, error enhancement, and
the chat / summarize request handlers, together with theorems settling the
frozen claims about them.

JavaScript strings are modelled as Lean `String`; the handful of string
operations the code uses (`trim`, `length`, `includes`, `startsWith`,
`toLowerCase`) are modelled on the underlying character list so that the
embedding matches the JS semantics (code-unit counting aside, which no claim
depends on).
-/

namespace CopilotService

/-- Characters removed by the JavaScript `String.prototype.trim`
(ASCII whitespace plus NBSP; further exotic Unicode space characters are
not used by any claim). -/
def jsWhitespace (c : Char) : Bool :=
  c == ' ' || c == '\t' || c == '\n' || c == '\r' || c == '\x0b' || c == '\x0c' || c == '\xa0'

/-- `trim` on the character list: drop whitespace from the front, then from
the back. -/
def jsTrimList (l : List Char) : List Char :=
  ((l.dropWhile jsWhitespace).reverse.dropWhile jsWhitespace).reverse

/-- Model of the JavaScript `s.trim()`. -/
def jsTrim (s : String) : String := ⟨jsTrimList s.data⟩

/-- Model of the JavaScript `s.length` (character count). -/
def jsLength (s : String) : Nat := s.data.length

/-- Model of the JavaScript `s.includes(pat)`: `pat` occurs contiguously in
`s`. -/
def jsIncludes (s pat : String) : Bool := decide (pat.data <:+: s.data)

/-- A JSON-ish value as delivered by the body parser; `vnull` is the JSON
null. Absence of a field is modelled by `Option` at the use site. -/
inductive JVal where
  | vnull
  | vbool (b : Bool)
  | vnum (n : Int)
  | vstr (s : String)
  | varr (items : List JVal)
  | vobj (fields : List (String × JVal))

/-- Property read `obj.k` on an object literal (fields assumed unique, as
produced by the JSON parser). -/
def jsGet (fields : List (String × JVal)) (k : String) : Option JVal :=
  match fields.find? (fun f => f.1 == k) with
  | some f => some f.2
  | none => none

/-- A thrown JavaScript value: either an `Error` instance carrying a message,
or any other value carrying its `String(...)` representation. -/
inductive JsError where
  | errObj (message : String)
  | other (stringRep : String)
deriving DecidableEq, Repr

/-- The `message` read in `err instanceof Error ? err.message : String(err)`. -/
def errMessage : JsError → String
  | .errObj m => m
  | .other s => s

/-- Environment configuration read by the resolver
(`MODEL_PROVIDER`, `MODEL_NAME`, `AZURE_OPENAI_ENDPOINT`); `none` models an
unset variable. -/
structure Env where
  modelProvider : Option String
  modelName : Option String
  azureOpenAIEndpoint : Option String
deriving DecidableEq, Repr

/-- JS falsiness of an environment string: unset or empty. -/
def envFalsy : Option String → Bool
  | none => true
  | some s => s == ""

namespace ModelConfig

/-- `TOKEN_REFRESH_BUFFER_MS = 5 * 60 * 1000`. -/
def tokenRefreshBufferMs : Int := 5 * 60 * 1000

/-- `SUPPORTED_MODEL_PREFIXES`. -/
def supportedModelPrefixes : List String :=
  ["o3", "o4-mini", "gpt-5", "codex-mini"]

/-- `isModelSupported`: case-insensitive match of the model name against the
allow-list, exact or followed by a dash or a dot. -/
def isModelSupported (modelName : String) : Bool :=
  let lower := modelName.toLower
  supportedModelPrefixes.any (fun p =>
    lower == p || lower.startsWith (p ++ "-") || lower.startsWith (p ++ "."))

/-- Fixed tail of the replacement message built by `enhanceModelError`,
following the interpolated model name. -/
def enhancedMsgTail : String :=
  "\" does not support encrypted content. " ++
  "The Copilot SDK encrypts prompts, so only o-series (o3, o3-mini, o4-mini) and gpt-5 family models work. " ++
  "Change MODEL_NAME to a supported model (e.g., o4-mini) and update your Azure OpenAI deployment."

/-- The full replacement message, `MODEL_NAME` defaulting to `(unknown)`. -/
def enhancedMsgOf (modelName : Option String) : String :=
  "Model \"" ++ modelName.getD "(unknown)" ++ enhancedMsgTail

/-- The distinguished upstream failure signature. -/
def encTrigger : String := "Encrypted content is not supported"

/-- `enhanceModelError`: rewrite the distinguished encrypted-content failure
into an actionable message; otherwise return an `Error` unchanged and wrap a
non-`Error` value. -/
def enhanceModelError (env : Env) (err : JsError) : JsError :=
  let msg := errMessage err
  if jsIncludes msg encTrigger then
    .errObj (enhancedMsgOf env.modelName)
  else
    match err with
    | .errObj m => .errObj m
    | .other s => .errObj s

/-- Module-level mutable state of model-config: the lazily constructed
credential client (tracked as constructed or not) and the cached
`\x7btoken, expiresOn\x7d` pair. -/
structure TokenState where
  cachedCredential : Bool
  cachedToken : Option (String × Int)
deriving DecidableEq, Repr

/-- Behaviour of `credential.getToken(scope)` for one call: resolves with a
token and expiry, resolves with no usable result, or rejects. -/
inductive FetchResult where
  | success (token : String) (expiresOnTimestamp : Int)
  | nullResult
  | fetchThrow (msg : String)
deriving DecidableEq, Repr

/-- Message thrown when the fetch returns no usable token. -/
def noTokenMsg : String :=
  "Failed to acquire Azure bearer token. " ++
  "Ensure the app has a managed identity with \x27Cognitive Services OpenAI User\x27 role, " ++
  "or that local credentials (az login / AZURE_CLIENT_ID) are configured."

/-- The slow path of `getAzureBearerToken`: the credential client has just
been ensured; perform the fetch, store the result on success. The `Nat`
counts identity-provider fetches performed. -/
def refreshToken (fetch : FetchResult) (st : TokenState) :
    Except String String × TokenState × Nat :=
  match fetch with
  | .fetchThrow m => (Except.error m, st, 1)
  | .nullResult => (Except.error noTokenMsg, st, 1)
  | .success tok exp =>
      (Except.ok tok, { st with cachedToken := some (tok, exp) }, 1)

/-- `getAzureBearerToken`: return the cached token while it has more than
the refresh buffer remaining; otherwise construct the credential client if
needed and fetch a fresh token. -/
def getAzureBearerToken (now : Int) (fetch : FetchResult) (st : TokenState) :
    Except String String × TokenState × Nat :=
  match st.cachedToken with
  | some (tok, exp) =>
      if now < exp - tokenRefreshBufferMs then (Except.ok tok, st, 0)
      else refreshToken fetch { st with cachedCredential := true }
  | none => refreshToken fetch { st with cachedCredential := true }

/-- Provider block of a session configuration (optional fields cover the two
source variants). -/
structure ProviderConfig where
  type : String
  baseUrl : String
  bearerToken : String
  wireApi : Option String := none
  azureApiVersion : Option String := none
deriving DecidableEq, Repr

/-- A session configuration handed to `createSession`. -/
structure SessionOptions where
  model : Option String := none
  streaming : Bool
  provider : Option ProviderConfig := none
deriving DecidableEq, Repr

/-- `endpoint.replace(/\/$/, "")`: strip one trailing slash. -/
def stripTrailingSlash (s : String) : String :=
  if s.endsWith "/" then s.dropRight 1 else s

/-- Message thrown by the azure path when endpoint or model name is missing. -/
def azureMissingMsg : String :=
  "AZURE_OPENAI_ENDPOINT and MODEL_NAME are required when MODEL_PROVIDER is \x27azure\x27"

/-- `getSessionOptions` (current model-config): azure BYOM path when
`MODEL_PROVIDER === "azure"`, otherwise the GitHub default / named-model
paths. Returns the result together with the token state and the number of
credential fetches performed. -/
def getSessionOptions (env : Env) (now : Int) (fetch : FetchResult)
    (st : TokenState) (streamingOpt : Option Bool) :
    Except String SessionOptions × TokenState × Nat :=
  let streaming := streamingOpt.getD false
  if env.modelProvider == some "azure" then
    if envFalsy env.azureOpenAIEndpoint || envFalsy env.modelName then
      (Except.error azureMissingMsg, st, 0)
    else
      match getAzureBearerToken now fetch st with
      | (Except.error m, st2, n) => (Except.error m, st2, n)
      | (Except.ok tok, st2, n) =>
          (Except.ok
            { model := env.modelName
              streaming := streaming
              provider := some
                { type := "azure"
                  baseUrl := stripTrailingSlash (env.azureOpenAIEndpoint.getD "")
                  bearerToken := tok
                  wireApi := some "completions"
                  azureApiVersion := some "2025-04-01-preview" } },
            st2, n)
  else if envFalsy env.modelName then
    (Except.ok { streaming := streaming }, st, 0)
  else
    (Except.ok { model := env.modelName, streaming := streaming }, st, 0)

end ModelConfig

namespace ModelConfigLegacy

/-- Legacy `getAzureBearerToken` (earlier model-config variant): no null
check on the fetch result; reading `.token` of a null result raises a
TypeError. -/
def getAzureBearerToken (now : Int) (fetch : ModelConfig.FetchResult)
    (st : ModelConfig.TokenState) :
    Except String String × ModelConfig.TokenState × Nat :=
  match st.cachedToken with
  | some (tok, exp) =>
      if now < exp - ModelConfig.tokenRefreshBufferMs then (Except.ok tok, st, 0)
      else fetchFresh fetch { st with cachedCredential := true }
  | none => fetchFresh fetch { st with cachedCredential := true }
where
  fetchFresh (fetch : ModelConfig.FetchResult) (st : ModelConfig.TokenState) :
      Except String String × ModelConfig.TokenState × Nat :=
    match fetch with
    | .fetchThrow m => (Except.error m, st, 1)
    | .nullResult =>
        (Except.error "TypeError: Cannot read properties of null (reading \x27token\x27)", st, 1)
    | .success tok exp =>
        (Except.ok tok, { st with cachedToken := some (tok, exp) }, 1)

/-- Message of the legacy unknown-provider failure. -/
def unknownProviderMsg (p : String) : String :=
  "Unknown MODEL_PROVIDER: \x27" ++ p ++ "\x27. Use \x27azure\x27 or leave unset."

/-- Legacy `getSessionOptions`: GitHub paths first, then the azure path with
separate missing-model / missing-endpoint messages, and an explicit
unknown-provider failure for any other truthy selector. -/
def getSessionOptions (env : Env) (now : Int) (fetch : ModelConfig.FetchResult)
    (st : ModelConfig.TokenState) (streamingOpt : Option Bool) :
    Except String ModelConfig.SessionOptions × ModelConfig.TokenState × Nat :=
  let streaming := streamingOpt.getD false
  if envFalsy env.modelProvider && envFalsy env.modelName then
    (Except.ok { streaming := streaming }, st, 0)
  else if envFalsy env.modelProvider then
    (Except.ok { model := env.modelName, streaming := streaming }, st, 0)
  else if env.modelProvider == some "azure" then
    if envFalsy env.modelName then
      (Except.error "MODEL_NAME is required when MODEL_PROVIDER is \x27azure\x27", st, 0)
    else if envFalsy env.azureOpenAIEndpoint then
      (Except.error "AZURE_OPENAI_ENDPOINT is required when MODEL_PROVIDER is \x27azure\x27", st, 0)
    else
      match getAzureBearerToken now fetch st with
      | (Except.error m, st2, n) => (Except.error m, st2, n)
      | (Except.ok tok, st2, n) =>
          (Except.ok
            { model := env.modelName
              streaming := streaming
              provider := some
                { type := "azure"
                  baseUrl := env.azureOpenAIEndpoint.getD ""
                  bearerToken := tok } },
            st2, n)
  else
    (Except.error (unknownProviderMsg (env.modelProvider.getD "")), st, 0)

end ModelConfigLegacy

namespace ChatRoute

/-- A validated history item as used by the prompt builder. -/
structure HistoryItem where
  role : String
  content : String
deriving DecidableEq, Repr

/-- `ALLOWED_ROLES = \x7b"user", "assistant"\x7d` membership. -/
def allowedRole (r : String) : Bool := r == "user" || r == "assistant"

/-- `isValidHistoryItem`: a non-null object whose `role` is a string in the
allowed set and whose `content` is a string. A JSON array is an object in
the `typeof` sense but has neither property, so it also yields false. -/
def isValidHistoryItem (item : JVal) : Bool :=
  match item with
  | .vobj fields =>
      (match jsGet fields "role" with
       | some (.vstr r) => allowedRole r
       | _ => false)
      &&
      (match jsGet fields "content" with
       | some (.vstr _) => true
       | _ => false)
  | _ => false

/-- The `h.role` read in the prompt builder (an absent property renders as
`undefined` in a template literal; never reached on validated items). -/
def roleOf (item : JVal) : String :=
  match item with
  | .vobj fields =>
      match jsGet fields "role" with
      | some (.vstr r) => r
      | _ => "undefined"
  | _ => "undefined"

/-- The `h.content` read in the prompt builder. -/
def contentOf (item : JVal) : String :=
  match item with
  | .vobj fields =>
      match jsGet fields "content" with
      | some (.vstr c) => c
      | _ => "undefined"
  | _ => "undefined"

/-- The prompt construction: history lines `<role>: <content>` in order,
then `user: <message>`, joined by newlines; the raw message when history is
absent or empty. -/
def buildPrompt (message : String) (history : Option (List JVal)) : String :=
  match history with
  | some items =>
      if items.length > 0 then
        String.intercalate "\n"
          ((items.map (fun it => roleOf it ++ ": " ++ contentOf it)) ++
            ["user: " ++ message])
      else message
  | none => message

/-- One write to the outgoing event stream: a content frame
(`data: ` JSON with a `content` field), the terminal marker
(`data: [DONE]`), or an error event (`event: error` + `data: ` JSON with an
`error` field). -/
inductive Frame where
  | content (delta : String)
  | done
  | errorEvt (msg : String)
deriving DecidableEq, Repr

/-- Terminal frames: the `[DONE]` marker and the error event. -/
def terminalFrame : Frame → Bool
  | .content _ => false
  | .done => true
  | .errorEvt _ => true

/-- Terminal behaviour of one driven session: idle, an explicit
`session.error` event (with its optional `data.message`), the 120 s timer
firing first, or `session.send` rejecting. -/
inductive SessionTerm where
  | idle
  | sessionError (msg : Option String)
  | timedOut
  | sendFailure (e : JsError)
deriving DecidableEq, Repr

/-- Script for the SDK collaborators of one chat request: whether
`getClient` or `createSession` throws, the `deltaContent` payloads emitted
while streaming (an empty string models a missing or empty payload), and
how the session terminates. -/
structure SdkScript where
  clientError : Option JsError := none
  createError : Option JsError := none
  deltas : List String := []
  term : SessionTerm := .idle
deriving DecidableEq, Repr

/-- Outcome of the streaming phase: the frames written in order, the prompt
handed to `session.send` when that point was reached, and whether a session
was created (and hence must be destroyed). -/
structure StreamResult where
  frames : List Frame
  promptSent : Option String
  sessionCreated : Bool
deriving DecidableEq, Repr

/-- A chat response: a JSON rejection before the stream is declared, or an
event stream. -/
inductive ChatResponse where
  | json (status : Nat) (error : String)
  | stream (r : StreamResult)
deriving DecidableEq, Repr

/-- Content type of the response as declared by the handler. -/
def responseContentType : ChatResponse → String
  | .json _ _ => "application/json"
  | .stream _ => "text/event-stream"

/-- Message of an enhanced error, as written into an error frame or a 500
body. -/
def enhancedMessage (env : Env) (e : JsError) : String :=
  errMessage (ModelConfig.enhanceModelError env e)

/-- The message of the `waitForIdle` timeout rejection at the default
120000 ms bound. -/
def timeoutMsg : String := "Timeout after 120000ms waiting for response"

/-- The message of the `waitForIdle` rejection on a `session.error` event. -/
def sessionErrorMsg (m : Option String) : String :=
  "Session error: " ++ m.getD "Unknown session error"

/-- The streaming phase of the chat handler (after validation and header
flush, transport never disconnecting): resolve session options, create the
session, forward non-empty deltas in order, then write exactly one terminal
frame according to how the wait ended; any throw lands in the catch block
and is written as one enhanced error event. -/
def chatStreamPhase (env : Env) (now : Int) (fetch : ModelConfig.FetchResult)
    (st : ModelConfig.TokenState) (prompt : String) (sdk : SdkScript) :
    StreamResult :=
  match sdk.clientError with
  | some e => ⟨[.errorEvt (enhancedMessage env e)], none, false⟩
  | none =>
    match (ModelConfig.getSessionOptions env now fetch st (some true)).1 with
    | Except.error m => ⟨[.errorEvt (enhancedMessage env (.errObj m))], none, false⟩
    | Except.ok _ =>
      match sdk.createError with
      | some e => ⟨[.errorEvt (enhancedMessage env e)], none, false⟩
      | none =>
        let cf := (sdk.deltas.filter (fun d => !(d == ""))).map Frame.content
        match sdk.term with
        | .idle => ⟨cf ++ [.done], some prompt, true⟩
        | .sessionError m =>
            ⟨cf ++ [.errorEvt (enhancedMessage env (.errObj (sessionErrorMsg m)))],
              some prompt, true⟩
        | .timedOut =>
            ⟨cf ++ [.errorEvt (enhancedMessage env (.errObj timeoutMsg))],
              some prompt, true⟩
        | .sendFailure e =>
            ⟨cf ++ [.errorEvt (enhancedMessage env e)], some prompt, true⟩

/-- The parsed request body fields; `none` models an absent field. -/
structure ChatRequest where
  message : Option JVal
  history : Option JVal

/-- Validation error bodies of the chat route. -/
def missingMessageMsg : String := "Missing \x27message\x27 field"

/-- Body for a non-string or blank message. -/
def messageNonEmptyMsg : String := "\x27message\x27 must be a non-empty string"

/-- Body for a non-array history. -/
def historyArrayMsg : String := "\x27history\x27 must be an array"

/-- Body for a malformed history element. -/
def historyItemMsg : String :=
  "Each history item must have \x27role\x27 (\x27user\x27|\x27assistant\x27) and \x27content\x27 strings"

/-- The POST /chat handler: validation in source order (message missing,
message non-string or blank after trim, history non-array, history element
malformed), then prompt construction and the streaming phase. -/
def chatHandler (env : Env) (now : Int) (fetch : ModelConfig.FetchResult)
    (st : ModelConfig.TokenState) (req : ChatRequest) (sdk : SdkScript) :
    ChatResponse :=
  match req.message with
  | none => .json 400 missingMessageMsg
  | some .vnull => .json 400 missingMessageMsg
  | some (.vstr s) =>
      if jsLength (jsTrim s) = 0 then .json 400 messageNonEmptyMsg
      else
        match req.history with
        | none => .stream (chatStreamPhase env now fetch st (buildPrompt s none) sdk)
        | some (.varr items) =>
            if items.all isValidHistoryItem then
              .stream (chatStreamPhase env now fetch st (buildPrompt s (some items)) sdk)
            else .json 400 historyItemMsg
        | some _ => .json 400 historyArrayMsg
  | some _ => .json 400 messageNonEmptyMsg

/-- One externally observable action of a handler run, in order: a stream
write, finalising the response, a JSON response, or the `finally` block
attempting `session.destroy()` (whose failure, if any, is recorded but
produces no write). -/
inductive Action where
  | writeFrame (f : Frame)
  | endResponse
  | jsonResponse (status : Nat) (error : String)
  | destroyCall (failed : Bool)
deriving DecidableEq, Repr

/-- Full action trace of the chat handler: validation rejections produce a
single JSON response and never reach the `finally`; stream runs write their
frames, end the response, and then destroy the session exactly when one was
created. -/
def chatTrace (env : Env) (now : Int) (fetch : ModelConfig.FetchResult)
    (st : ModelConfig.TokenState) (req : ChatRequest) (sdk : SdkScript)
    (destroyFails : Bool) : List Action :=
  match chatHandler env now fetch st req sdk with
  | .json status msg => [.jsonResponse status msg]
  | .stream r =>
      (r.frames.map Action.writeFrame) ++ [.endResponse] ++
        (if r.sessionCreated then [.destroyCall destroyFails] else [])

/-- Actions visible to the HTTP caller (everything except the destroy
attempt, which happens after the response is finalised). -/
def visibleActions (trace : List Action) : List Action :=
  trace.filter (fun a =>
    match a with
    | .destroyCall _ => false
    | _ => true)

end ChatRoute

namespace SummarizeRoute

/-- Terminal behaviour of one summarize session: `sendAndWait` rejects
(upstream error or the 120 s bound elapsing), or resolves with an optional
`data.content` payload (`none` models a missing response, missing data or
missing content). -/
inductive SummarizeOutcome where
  | sendFailure (e : JsError)
  | result (content : Option String)
deriving DecidableEq, Repr

/-- Script for the SDK collaborators of one summarize request. -/
structure SummarizeSdk where
  clientError : Option JsError := none
  createError : Option JsError := none
  outcome : SummarizeOutcome := .result none
deriving DecidableEq, Repr

/-- A summarize response body: `\x7bsummary\x7d` with a status, or
`\x7berror\x7d` with a status. -/
inductive SummarizeResponse where
  | success (status : Nat) (summary : String)
  | failure (status : Nat) (error : String)
deriving DecidableEq, Repr

/-- Result of the summarize handler, tracking whether a session was created
(and hence destroyed in the `finally`). -/
structure SummarizeResult where
  response : SummarizeResponse
  sessionCreated : Bool
deriving DecidableEq, Repr

/-- Validation error bodies of the summarize route. -/
def missingTextMsg : String := "Missing \x27text\x27 field"

/-- Body for a non-string or blank text. -/
def textNonEmptyMsg : String := "\x27text\x27 must be a non-empty string"

/-- Body for an over-long text. -/
def textTooLongMsg : String := "\x27text\x27 exceeds maximum length of 50000 characters"

/-- The fixed instructional prompt template. -/
def summarizePrompt (text : String) : String :=
  "Summarize the following text in 2-3 concise sentences:\n\n" ++ text

/-- The POST /summarize handler: validation in source order (text missing,
non-string or blank after trim, longer than 50000), then resolver, session
creation and one awaited `sendAndWait`; any throw lands in the catch block
and becomes a 500 with the enhanced message. -/
def summarizeHandler (env : Env) (now : Int) (fetch : ModelConfig.FetchResult)
    (st : ModelConfig.TokenState) (text : Option JVal) (sdk : SummarizeSdk) :
    SummarizeResult :=
  match text with
  | none => ⟨.failure 400 missingTextMsg, false⟩
  | some .vnull => ⟨.failure 400 missingTextMsg, false⟩
  | some (.vstr s) =>
      if jsLength (jsTrim s) = 0 then ⟨.failure 400 textNonEmptyMsg, false⟩
      else if jsLength s > 50000 then ⟨.failure 413 textTooLongMsg, false⟩
      else
        match sdk.clientError with
        | some e => ⟨.failure 500 (ChatRoute.enhancedMessage env e), false⟩
        | none =>
          match (ModelConfig.getSessionOptions env now fetch st none).1 with
          | Except.error m =>
              ⟨.failure 500 (ChatRoute.enhancedMessage env (.errObj m)), false⟩
          | Except.ok _ =>
            match sdk.createError with
            | some e => ⟨.failure 500 (ChatRoute.enhancedMessage env e), false⟩
            | none =>
              match sdk.outcome with
              | .sendFailure e =>
                  ⟨.failure 500 (ChatRoute.enhancedMessage env e), true⟩
              | .result c => ⟨.success 200 (c.getD ""), true⟩
  | some _ => ⟨.failure 400 textNonEmptyMsg, false⟩

/-- Full action trace of the summarize handler: one JSON response, then the
`finally` destroy attempt exactly when a session was created. -/
def summarizeTrace (env : Env) (now : Int) (fetch : ModelConfig.FetchResult)
    (st : ModelConfig.TokenState) (text : Option JVal) (sdk : SummarizeSdk)
    (destroyFails : Bool) : List ChatRoute.Action :=
  let r := summarizeHandler env now fetch st text sdk
  (match r.response with
   | .success status summary => [ChatRoute.Action.jsonResponse status summary]
   | .failure status msg => [ChatRoute.Action.jsonResponse status msg]) ++
    (if r.sessionCreated then [ChatRoute.Action.destroyCall destroyFails] else [])

end SummarizeRoute

/-- Rendering of the prompt as the specification words it: the history items
as `<role>: <content>` lines in original order followed by
`user: <message>`, joined with newlines; the raw message when the history is
empty. Stated from the spec text, to be compared with the prompt the handler
transmits. -/
def specPrompt (message : String) (history : List ChatRoute.HistoryItem) : String :=
  if history = [] then message
  else
    String.intercalate "\n"
      ((history.map (fun h => h.role ++ ": " ++ h.content)) ++
        ["user: " ++ message])

/-- The history item a validated `JVal` denotes. -/
def extractHistoryItem (v : JVal) : ChatRoute.HistoryItem :=
  ⟨ChatRoute.roleOf v, ChatRoute.contentOf v⟩

/-- A chat request that passes all validation checks. -/
def ValidChatRequest (req : ChatRoute.ChatRequest) : Prop :=
  (∃ s, req.message = some (.vstr s) ∧ jsLength (jsTrim s) ≠ 0) ∧
  (req.history = none ∨
    ∃ items, req.history = some (.varr items) ∧
      items.all ChatRoute.isValidHistoryItem = true)

/- Helper lemmas, shared across the claim theorems. -/

lemma jsIncludes_append_right (s t pat : String) (h : pat.data <:+: t.data) :
    jsIncludes (s ++ t) pat = true := by
  rcases h with ⟨u, v, huv⟩
  refine decide_eq_true ⟨s.data ++ u, v, ?_⟩
  rw [show (s ++ t).data = s.data ++ t.data from rfl, ← huv]
  simp [List.append_assoc]

lemma jsIncludes_sandwich (a p b : String) : jsIncludes (a ++ p ++ b) p = true := by
  refine decide_eq_true ⟨a.data, b.data, ?_⟩
  rfl

lemma contentFrames_not_terminal (l : List String) :
    ∀ c ∈ l.map ChatRoute.Frame.content, ChatRoute.terminalFrame c = false := by
  intro c hc
  rcases List.mem_map.mp hc with ⟨d, _, rfl⟩
  rfl

lemma jsTrimList_of_all_ws (l : List Char) (h : ∀ c ∈ l, jsWhitespace c = true) :
    jsTrimList l = [] := by
  unfold jsTrimList
  rw [List.dropWhile_eq_nil_iff.mpr (fun x hx => h x hx)]
  rfl

lemma dropWhile_ws_replicate_a (n : Nat) :
    (List.replicate n 'a').dropWhile jsWhitespace = List.replicate n 'a' := by
  cases n with
  | zero => rfl
  | succ k => rw [List.replicate_succ, List.dropWhile_cons]; simp [jsWhitespace]

lemma jsTrimList_replicate_a (n : Nat) :
    jsTrimList (List.replicate n 'a') = List.replicate n 'a' := by
  unfold jsTrimList
  rw [dropWhile_ws_replicate_a, List.reverse_replicate, dropWhile_ws_replicate_a,
    List.reverse_replicate]

/-- Whether an action is the `finally` destroy attempt. -/
def ChatRoute.isDestroyCall : ChatRoute.Action → Bool
  | .destroyCall _ => true
  | _ => false

/-- Whether the chat handler run created a session. -/
def ChatRoute.sessionWasCreated : ChatRoute.ChatResponse → Bool
  | .stream r => r.sessionCreated
  | .json _ _ => false

lemma visibleActions_append (l1 l2 : List ChatRoute.Action) :
    ChatRoute.visibleActions (l1 ++ l2) =
      ChatRoute.visibleActions l1 ++ ChatRoute.visibleActions l2 :=
  List.filter_append _ _

lemma visibleActions_writeFrames (fs : List ChatRoute.Frame) :
    ChatRoute.visibleActions (fs.map ChatRoute.Action.writeFrame) =
      fs.map ChatRoute.Action.writeFrame := by
  induction fs with
  | nil => rfl
  | cons f t ih => simp [ChatRoute.visibleActions, List.filter_cons]

lemma countP_destroy_writeFrames (fs : List ChatRoute.Frame) :
    (fs.map ChatRoute.Action.writeFrame).countP ChatRoute.isDestroyCall = 0 := by
  induction fs with
  | nil => rfl
  | cons f t ih => simp [List.countP_cons, ChatRoute.isDestroyCall]

lemma filter_destroy_writeFrames (fs : List ChatRoute.Frame) :
    (fs.map ChatRoute.Action.writeFrame).filter ChatRoute.isDestroyCall = [] := by
  induction fs with
  | nil => rfl
  | cons f t ih => simp [List.filter_cons, ChatRoute.isDestroyCall]

lemma chatStreamPhase_frames (env : Env) (now : Int)
    (fetch : ModelConfig.FetchResult) (st : ModelConfig.TokenState)
    (prompt : String) (sdk : ChatRoute.SdkScript) :
    ∃ cs t, (ChatRoute.chatStreamPhase env now fetch st prompt sdk).frames =
        cs ++ [t] ∧
      ChatRoute.terminalFrame t = true ∧
      ∀ c ∈ cs, ChatRoute.terminalFrame c = false := by
  unfold ChatRoute.chatStreamPhase
  cases hc : sdk.clientError with
  | some e => exact ⟨[], _, rfl, rfl, by simp⟩
  | none =>
    cases hr : (ModelConfig.getSessionOptions env now fetch st (some true)).1 with
    | error m => exact ⟨[], _, rfl, rfl, by simp⟩
    | ok o =>
      cases hcr : sdk.createError with
      | some e => exact ⟨[], _, rfl, rfl, by simp⟩
      | none =>
        cases ht : sdk.term with
        | idle => exact ⟨_, _, rfl, rfl, contentFrames_not_terminal _⟩
        | sessionError m => exact ⟨_, _, rfl, rfl, contentFrames_not_terminal _⟩
        | timedOut => exact ⟨_, _, rfl, rfl, contentFrames_not_terminal _⟩
        | sendFailure e => exact ⟨_, _, rfl, rfl, contentFrames_not_terminal _⟩

lemma chatStreamPhase_sent (env : Env) (now : Int)
    (fetch : ModelConfig.FetchResult) (st : ModelConfig.TokenState)
    (prompt : String) (sdk : ChatRoute.SdkScript)
    (hclient : sdk.clientError = none) (hcreate : sdk.createError = none)
    (hres : ∃ o, (ModelConfig.getSessionOptions env now fetch st
        (some true)).1 = Except.ok o) :
    (ChatRoute.chatStreamPhase env now fetch st prompt sdk).promptSent =
      some prompt ∧
    (ChatRoute.chatStreamPhase env now fetch st prompt sdk).sessionCreated =
      true := by
  obtain ⟨o, ho⟩ := hres
  unfold ChatRoute.chatStreamPhase
  rw [hclient, ho, hcreate]
  cases ht : sdk.term <;> exact ⟨rfl, rfl⟩

lemma getSessionOptions_non_azure_ok (env : Env) (now : Int)
    (fetch : ModelConfig.FetchResult) (st : ModelConfig.TokenState)
    (o : Option Bool) (hp : (env.modelProvider == some "azure") = false) :
    (ModelConfig.getSessionOptions env now fetch st o).1 =
      Except.ok (if envFalsy env.modelName then { streaming := o.getD false }
        else { model := env.modelName, streaming := o.getD false }) := by
  unfold ModelConfig.getSessionOptions
  rw [hp]
  by_cases hm : envFalsy env.modelName = true <;> simp [hm]

lemma buildPrompt_eq_spec (s : String) (items : List JVal) :
    ChatRoute.buildPrompt s (some items) =
      specPrompt s (items.map extractHistoryItem) := by
  cases items with
  | nil => rfl
  | cons a l =>
      have h1 : ChatRoute.buildPrompt s (some (a :: l)) =
          String.intercalate "\n"
            (((a :: l).map
              (fun it => ChatRoute.roleOf it ++ ": " ++ ChatRoute.contentOf it)) ++
              ["user: " ++ s]) := by
        simp [ChatRoute.buildPrompt]
      have h2 : specPrompt s ((a :: l).map extractHistoryItem) =
          String.intercalate "\n"
            ((((a :: l).map extractHistoryItem).map
              (fun h => h.role ++ ": " ++ h.content)) ++
              ["user: " ++ s]) := by
        simp [specPrompt]
      rw [h1, h2, List.map_map]
      rfl

/-- Claim C3: with a cached token whose expiry is more than five minutes
away, `getAzureBearerToken` returns it with zero identity-provider fetches
and unchanged state; with less than five minutes remaining, or with no
cached token, it performs exactly one fetch, stores the fetched pair, and
returns the fresh token. -/
theorem azure_token_cache_behaviour
    (now : Int) (fetch : ModelConfig.FetchResult) (st : ModelConfig.TokenState)
    (tok t : String) (exp e : Int) :
    (st.cachedToken = some (tok, exp) →
      ModelConfig.tokenRefreshBufferMs < exp - now →
      ModelConfig.getAzureBearerToken now fetch st = (Except.ok tok, st, 0)) ∧
    (st.cachedToken = some (tok, exp) →
      exp - now < ModelConfig.tokenRefreshBufferMs →
      fetch = .success t e →
      ModelConfig.getAzureBearerToken now fetch st =
        (Except.ok t, ⟨true, some (t, e)⟩, 1)) ∧
    (st.cachedToken = none → fetch = .success t e →
      ModelConfig.getAzureBearerToken now fetch st =
        (Except.ok t, ⟨true, some (t, e)⟩, 1)) := by
  have hbuf : ModelConfig.tokenRefreshBufferMs = 300000 := rfl
  refine ⟨?_, ?_, ?_⟩
  · intro h1 h2
    simp only [ModelConfig.getAzureBearerToken, h1]
    rw [if_pos (by omega)]
  · intro h1 h2 h3
    simp only [ModelConfig.getAzureBearerToken, h1]
    rw [if_neg (by omega)]
    subst h3
    rfl
  · intro h1 h2
    simp only [ModelConfig.getAzureBearerToken, h1]
    subst h2
    rfl

/-- Witness for C3: the three cache regimes at concrete instants. -/
theorem azure_token_cache_behaviour_witness :
    ModelConfig.getAzureBearerToken 0 (.fetchThrow "net")
        ⟨true, some ("cached", 600001)⟩ =
      (Except.ok "cached", ⟨true, some ("cached", 600001)⟩, 0) ∧
    ModelConfig.getAzureBearerToken 0 (.success "fresh" 7200000)
        ⟨false, some ("old", 100)⟩ =
      (Except.ok "fresh", ⟨true, some ("fresh", 7200000)⟩, 1) ∧
    ModelConfig.getAzureBearerToken 0 (.success "fresh" 7200000)
        ⟨false, none⟩ =
      (Except.ok "fresh", ⟨true, some ("fresh", 7200000)⟩, 1) :=
  ⟨(azure_token_cache_behaviour 0 _ _ "cached" "x" 600001 0).1 rfl (by decide),
   (azure_token_cache_behaviour 0 _ _ "old" "fresh" 100 7200000).2.1 rfl (by decide) rfl,
   (azure_token_cache_behaviour 0 _ _ "x" "fresh" 0 7200000).2.2 rfl rfl⟩

/-- Claim C10 as stated is false: when no credential client was constructed
yet and the fetch fails, the module state does change — the lazily
constructed credential client is created (and kept) before the failing
fetch, so it does not remain exactly as it was before the call. The error
itself does propagate. -/
theorem token_fetch_failure_constructs_credential :
    (ModelConfig.getAzureBearerToken 0 (.fetchThrow "network error")
        ⟨false, none⟩).2.1 ≠ (⟨false, none⟩ : ModelConfig.TokenState) ∧
    (ModelConfig.getAzureBearerToken 0 (.fetchThrow "network error")
        ⟨false, none⟩).2.1.cachedCredential = true ∧
    (ModelConfig.getAzureBearerToken 0 (.fetchThrow "network error")
        ⟨false, none⟩).1 = Except.error "network error" :=
  ⟨by decide, rfl, rfl⟩

/-- Claim C10 amended: when the stale path is taken and the identity fetch
throws or returns no usable result, an error propagates, the cached token
slot is exactly unchanged (never replaced or cleared), and the credential
client is constructed (hence retained) — it is unchanged only if it already
existed. Exactly one fetch is attempted. -/
theorem token_fetch_failure_preserves_cached_token
    (now : Int) (fetch : ModelConfig.FetchResult) (st : ModelConfig.TokenState)
    (hfail : fetch = .nullResult ∨ ∃ m, fetch = .fetchThrow m)
    (hstale : ¬ ∃ tok exp, st.cachedToken = some (tok, exp) ∧
        now < exp - ModelConfig.tokenRefreshBufferMs) :
    (∃ m, (ModelConfig.getAzureBearerToken now fetch st).1 = Except.error m) ∧
    (ModelConfig.getAzureBearerToken now fetch st).2.1.cachedToken =
      st.cachedToken ∧
    (ModelConfig.getAzureBearerToken now fetch st).2.1.cachedCredential = true ∧
    (ModelConfig.getAzureBearerToken now fetch st).2.2 = 1 := by
  have hrefresh : ModelConfig.getAzureBearerToken now fetch st =
      ModelConfig.refreshToken fetch { st with cachedCredential := true } := by
    cases hc : st.cachedToken with
    | none => unfold ModelConfig.getAzureBearerToken; rw [hc]
    | some p =>
        rcases p with ⟨tok, exp⟩
        unfold ModelConfig.getAzureBearerToken
        rw [hc]
        dsimp only
        rw [if_neg (fun hlt => hstale ⟨tok, exp, hc, hlt⟩)]
  rw [hrefresh]
  rcases hfail with h | ⟨m, h⟩ <;> subst h <;>
    simp [ModelConfig.refreshToken]

/-- Witness for C10 (amended): a stale cached token surviving a rejected
fetch, with the credential client becoming constructed. -/
theorem token_fetch_failure_preserves_cached_token_witness :
    (∃ m, (ModelConfig.getAzureBearerToken 0 (.fetchThrow "net")
        ⟨false, some ("old", 100)⟩).1 = Except.error m) ∧
    (ModelConfig.getAzureBearerToken 0 (.fetchThrow "net")
        ⟨false, some ("old", 100)⟩).2.1.cachedToken = some ("old", 100) ∧
    (ModelConfig.getAzureBearerToken 0 (.fetchThrow "net")
        ⟨false, some ("old", 100)⟩).2.1.cachedCredential = true ∧
    (ModelConfig.getAzureBearerToken 0 (.fetchThrow "net")
        ⟨false, some ("old", 100)⟩).2.2 = 1 :=
  token_fetch_failure_preserves_cached_token 0 _ _
    (Or.inr ⟨"net", rfl⟩)
    (by rintro ⟨tok, exp, hc, hlt⟩; cases hc; revert hlt; decide)

/-- Claim C2 as stated is false for the current resolver: with the provider
selector set to a value other than the BYOM marker (here `openai`), the
current `getSessionOptions` does not fail — it returns a GitHub named-model
configuration with zero credential fetches. -/
theorem unknown_provider_selector_accepted :
    (ModelConfig.getSessionOptions ⟨some "openai", some "gpt-5", none⟩ 0
        (.fetchThrow "x") ⟨false, none⟩ none).1 =
      Except.ok { model := some "gpt-5", streaming := false, provider := none } ∧
    (ModelConfig.getSessionOptions ⟨some "openai", some "gpt-5", none⟩ 0
        (.fetchThrow "x") ⟨false, none⟩ none).2.2 = 0 :=
  ⟨rfl, rfl⟩

/-- Claim C2 amended: the current resolver treats any provider selector
other than `azure` exactly like an unset one — it returns a GitHub
default or named-model configuration (no provider block, no fetch, no
error); only the legacy resolver variant fails, with a message naming the
unknown selector. -/
theorem non_azure_provider_behaviour
    (env : Env) (now : Int) (fetch : ModelConfig.FetchResult)
    (st : ModelConfig.TokenState) (o : Option Bool)
    (hp : env.modelProvider ≠ some "azure") :
    (∃ opts : ModelConfig.SessionOptions,
      ModelConfig.getSessionOptions env now fetch st o =
        (Except.ok opts, st, 0) ∧ opts.provider = none) ∧
    (∀ p, env.modelProvider = some p → p ≠ "" → p ≠ "azure" →
      ModelConfigLegacy.getSessionOptions env now fetch st o =
        (Except.error (ModelConfigLegacy.unknownProviderMsg p), st, 0) ∧
      jsIncludes (ModelConfigLegacy.unknownProviderMsg p) p = true) := by
  have hbeq : (env.modelProvider == some "azure") = false := by
    simpa using hp
  constructor
  · by_cases hm : envFalsy env.modelName = true
    · refine ⟨{ streaming := o.getD false }, ?_, rfl⟩
      unfold ModelConfig.getSessionOptions
      rw [hbeq]
      simp [hm]
    · refine ⟨{ model := env.modelName, streaming := o.getD false }, ?_, rfl⟩
      unfold ModelConfig.getSessionOptions
      rw [hbeq]
      simp [hm]
  · intro p hpv hne hna
    have hfalsy : envFalsy env.modelProvider = false := by
      rw [hpv]; simpa [envFalsy] using hne
    constructor
    · unfold ModelConfigLegacy.getSessionOptions
      rw [hfalsy, hbeq, hpv]
      simp
    · show jsIncludes ("Unknown MODEL_PROVIDER: \x27" ++ p ++
        "\x27. Use \x27azure\x27 or leave unset.") p = true
      exact jsIncludes_sandwich _ p _

/-- Witness for C2 (amended): the `openai` selector at a concrete
environment, accepted by the current resolver and rejected by the legacy
one. -/
theorem non_azure_provider_behaviour_witness :
    (∃ opts : ModelConfig.SessionOptions,
      ModelConfig.getSessionOptions ⟨some "openai", some "gpt-5", none⟩ 0
          (.fetchThrow "x") ⟨false, none⟩ none =
        (Except.ok opts, ⟨false, none⟩, 0) ∧ opts.provider = none) ∧
    ModelConfigLegacy.getSessionOptions ⟨some "openai", some "gpt-5", none⟩ 0
        (.fetchThrow "x") ⟨false, none⟩ none =
      (Except.error (ModelConfigLegacy.unknownProviderMsg "openai"),
        ⟨false, none⟩, 0) ∧
    jsIncludes (ModelConfigLegacy.unknownProviderMsg "openai") "openai" = true :=
  ⟨(non_azure_provider_behaviour ⟨some "openai", some "gpt-5", none⟩ 0
      (.fetchThrow "x") ⟨false, none⟩ none (by decide)).1,
   ((non_azure_provider_behaviour ⟨some "openai", some "gpt-5", none⟩ 0
      (.fetchThrow "x") ⟨false, none⟩ none (by decide)).2 "openai" rfl
      (by decide) (by decide)).1,
   ((non_azure_provider_behaviour ⟨some "openai", some "gpt-5", none⟩ 0
      (.fetchThrow "x") ⟨false, none⟩ none (by decide)).2 "openai" rfl
      (by decide) (by decide)).2⟩

set_option maxRecDepth 8000 in
/-- Claim C5: error enhancement is selective — a message containing the
encrypted-content signature is replaced by a message containing
`does not support encrypted content` and the supported family `o4-mini`;
any other `Error` value is returned unchanged; a non-`Error` value is
wrapped with its string representation — and applying it twice equals
applying it once. -/
theorem enhance_model_error_selective_idempotent (env : Env) (err : JsError) :
    (jsIncludes (errMessage err) ModelConfig.encTrigger = true →
      ModelConfig.enhanceModelError env err =
        .errObj (ModelConfig.enhancedMsgOf env.modelName) ∧
      jsIncludes (ModelConfig.enhancedMsgOf env.modelName)
        "does not support encrypted content" = true ∧
      jsIncludes (ModelConfig.enhancedMsgOf env.modelName) "o4-mini" = true ∧
      "o4-mini" ∈ ModelConfig.supportedModelPrefixes) ∧
    (jsIncludes (errMessage err) ModelConfig.encTrigger = false →
      (∀ m, err = .errObj m → ModelConfig.enhanceModelError env err = err) ∧
      (∀ s, err = .other s →
        ModelConfig.enhanceModelError env err = .errObj s)) ∧
    ModelConfig.enhanceModelError env (ModelConfig.enhanceModelError env err) =
      ModelConfig.enhanceModelError env err := by
  refine ⟨?_, ?_, ?_⟩
  · intro h
    refine ⟨by simp [ModelConfig.enhanceModelError, h], ?_, ?_, by decide⟩
    · exact jsIncludes_append_right
        ("Model \"" ++ env.modelName.getD "(unknown)")
        ModelConfig.enhancedMsgTail _ (by decide)
    · exact jsIncludes_append_right
        ("Model \"" ++ env.modelName.getD "(unknown)")
        ModelConfig.enhancedMsgTail _ (by decide)
  · intro h
    constructor
    · intro m hm
      subst hm
      simp only [errMessage] at h
      simp [ModelConfig.enhanceModelError, errMessage, h]
    · intro s hs
      subst hs
      simp only [errMessage] at h
      simp [ModelConfig.enhanceModelError, errMessage, h]
  · cases err with
    | errObj m =>
        cases hb : jsIncludes m ModelConfig.encTrigger with
        | true =>
            have h1 : ModelConfig.enhanceModelError env (.errObj m) =
                .errObj (ModelConfig.enhancedMsgOf env.modelName) := by
              simp [ModelConfig.enhanceModelError, errMessage, hb]
            rw [h1]
            cases hb2 : jsIncludes (ModelConfig.enhancedMsgOf env.modelName)
                ModelConfig.encTrigger <;>
              simp [ModelConfig.enhanceModelError, errMessage, hb2]
        | false =>
            have h1 : ModelConfig.enhanceModelError env (.errObj m) =
                .errObj m := by
              simp [ModelConfig.enhanceModelError, errMessage, hb]
            rw [h1]
            exact h1
    | other s =>
        cases hb : jsIncludes s ModelConfig.encTrigger with
        | true =>
            have h1 : ModelConfig.enhanceModelError env (.other s) =
                .errObj (ModelConfig.enhancedMsgOf env.modelName) := by
              simp [ModelConfig.enhanceModelError, errMessage, hb]
            rw [h1]
            cases hb2 : jsIncludes (ModelConfig.enhancedMsgOf env.modelName)
                ModelConfig.encTrigger <;>
              simp [ModelConfig.enhanceModelError, errMessage, hb2]
        | false =>
            have h1 : ModelConfig.enhanceModelError env (.other s) =
                .errObj s := by
              simp [ModelConfig.enhanceModelError, errMessage, hb]
            rw [h1]
            have h2 : ModelConfig.enhanceModelError env (.errObj s) =
                .errObj s := by
              simp [ModelConfig.enhanceModelError, errMessage, hb]
            exact h2

/-- Witness for C5: the distinguished signature is rewritten, an ordinary
error passes through unchanged, a non-error is wrapped. -/
theorem enhance_model_error_selective_idempotent_witness :
    ModelConfig.enhanceModelError ⟨none, some "gpt-4o", none⟩
        (.errObj "upstream: Encrypted content is not supported here") =
      .errObj (ModelConfig.enhancedMsgOf (some "gpt-4o")) ∧
    ModelConfig.enhanceModelError ⟨none, some "gpt-4o", none⟩ (.errObj "boom") =
      .errObj "boom" ∧
    ModelConfig.enhanceModelError ⟨none, some "gpt-4o", none⟩ (.other "oops") =
      .errObj "oops" :=
  ⟨((enhance_model_error_selective_idempotent ⟨none, some "gpt-4o", none⟩
      (.errObj "upstream: Encrypted content is not supported here")).1
      (by decide)).1,
   ((enhance_model_error_selective_idempotent ⟨none, some "gpt-4o", none⟩
      (.errObj "boom")).2.1 (by decide)).1 "boom" rfl,
   ((enhance_model_error_selective_idempotent ⟨none, some "gpt-4o", none⟩
      (.other "oops")).2.1 (by decide)).2 "oops" rfl⟩

lemma chatHandler_stream_none (env : Env) (now : Int)
    (fetch : ModelConfig.FetchResult) (st : ModelConfig.TokenState)
    (s : String) (sdk : ChatRoute.SdkScript)
    (hs : jsLength (jsTrim s) ≠ 0) :
    ChatRoute.chatHandler env now fetch st ⟨some (.vstr s), none⟩ sdk =
      .stream (ChatRoute.chatStreamPhase env now fetch st
        (ChatRoute.buildPrompt s none) sdk) := by
  unfold ChatRoute.chatHandler
  dsimp only
  rw [if_neg hs]

lemma chatHandler_stream_items (env : Env) (now : Int)
    (fetch : ModelConfig.FetchResult) (st : ModelConfig.TokenState)
    (s : String) (items : List JVal) (sdk : ChatRoute.SdkScript)
    (hs : jsLength (jsTrim s) ≠ 0)
    (hall : items.all ChatRoute.isValidHistoryItem = true) :
    ChatRoute.chatHandler env now fetch st
        ⟨some (.vstr s), some (.varr items)⟩ sdk =
      .stream (ChatRoute.chatStreamPhase env now fetch st
        (ChatRoute.buildPrompt s (some items)) sdk) := by
  unfold ChatRoute.chatHandler
  dsimp only
  rw [if_neg hs, if_pos hall]

/-- Claim C1: a valid chat request (transport never disconnecting) produces
an event stream whose frames are some content frames followed by exactly one
terminal frame — the `[DONE]` marker or one error event, never both, never
neither — and that terminal frame is the last write. -/
theorem chat_stream_exactly_one_terminal
    (env : Env) (now : Int) (fetch : ModelConfig.FetchResult)
    (st : ModelConfig.TokenState) (req : ChatRoute.ChatRequest)
    (sdk : ChatRoute.SdkScript) (h : ValidChatRequest req) :
    ∃ r : ChatRoute.StreamResult,
      ChatRoute.chatHandler env now fetch st req sdk = .stream r ∧
      ∃ cs t, r.frames = cs ++ [t] ∧ ChatRoute.terminalFrame t = true ∧
        (∀ c ∈ cs, ChatRoute.terminalFrame c = false) ∧
        (r.frames.filter ChatRoute.terminalFrame).length = 1 := by
  have hfilter : ∀ (cs : List ChatRoute.Frame) (t : ChatRoute.Frame),
      ChatRoute.terminalFrame t = true →
      (∀ c ∈ cs, ChatRoute.terminalFrame c = false) →
      ((cs ++ [t]).filter ChatRoute.terminalFrame).length = 1 := by
    intro cs t ht hcs
    rw [List.filter_append,
      List.filter_eq_nil_iff.mpr (fun a ha => by simp [hcs a ha])]
    simp [List.filter_cons, ht]
  obtain ⟨msgF, histF⟩ := req
  obtain ⟨⟨s, hm, hs⟩, hh⟩ := h
  simp only at hm hh
  subst hm
  rcases hh with hh | ⟨items, hh, hall⟩ <;> subst hh
  · obtain ⟨cs, t, hfr, ht, hcs⟩ :=
      chatStreamPhase_frames env now fetch st (ChatRoute.buildPrompt s none) sdk
    exact ⟨_, chatHandler_stream_none env now fetch st s sdk hs,
      cs, t, hfr, ht, hcs, hfr ▸ hfilter cs t ht hcs⟩
  · obtain ⟨cs, t, hfr, ht, hcs⟩ :=
      chatStreamPhase_frames env now fetch st
        (ChatRoute.buildPrompt s (some items)) sdk
    exact ⟨_, chatHandler_stream_items env now fetch st s items sdk hs hall,
      cs, t, hfr, ht, hcs, hfr ▸ hfilter cs t ht hcs⟩

/-- Witness for C1: a concrete request with two deltas ending in idle. -/
theorem chat_stream_exactly_one_terminal_witness :
    ValidChatRequest ⟨some (.vstr "hi"), none⟩ ∧
    ∃ r : ChatRoute.StreamResult,
      ChatRoute.chatHandler ⟨none, none, none⟩ 0 .nullResult ⟨false, none⟩
          ⟨some (.vstr "hi"), none⟩ ⟨none, none, ["Hello", " World"], .idle⟩ =
        .stream r ∧
      ∃ cs t, r.frames = cs ++ [t] ∧ ChatRoute.terminalFrame t = true ∧
        (∀ c ∈ cs, ChatRoute.terminalFrame c = false) ∧
        (r.frames.filter ChatRoute.terminalFrame).length = 1 :=
  ⟨⟨⟨"hi", rfl, by decide⟩, Or.inl rfl⟩,
   chat_stream_exactly_one_terminal ⟨none, none, none⟩ 0 .nullResult
     ⟨false, none⟩ ⟨some (.vstr "hi"), none⟩ ⟨none, none, ["Hello", " World"], .idle⟩
     ⟨⟨"hi", rfl, by decide⟩, Or.inl rfl⟩⟩

/-- Claim C4: when the stream phase reaches `session.send`, the transmitted
prompt is exactly the spec rendering — history items as `<role>: <content>`
lines in original order followed by `user: <message>`, newline-joined — and
the raw message when the history is absent. -/
theorem chat_prompt_matches_spec
    (env : Env) (now : Int) (fetch : ModelConfig.FetchResult)
    (st : ModelConfig.TokenState) (sdk : ChatRoute.SdkScript)
    (s : String) (items : List JVal)
    (hs : jsLength (jsTrim s) ≠ 0)
    (hitems : items.all ChatRoute.isValidHistoryItem = true)
    (hclient : sdk.clientError = none) (hcreate : sdk.createError = none)
    (hres : ∃ o, (ModelConfig.getSessionOptions env now fetch st
        (some true)).1 = Except.ok o) :
    (∃ r, ChatRoute.chatHandler env now fetch st
        ⟨some (.vstr s), some (.varr items)⟩ sdk = .stream r ∧
      r.promptSent = some (specPrompt s (items.map extractHistoryItem))) ∧
    (∃ r, ChatRoute.chatHandler env now fetch st ⟨some (.vstr s), none⟩ sdk =
        .stream r ∧
      r.promptSent = some (specPrompt s [])) := by
  constructor
  · refine ⟨ChatRoute.chatStreamPhase env now fetch st
      (ChatRoute.buildPrompt s (some items)) sdk,
      chatHandler_stream_items env now fetch st s items sdk hs hitems, ?_⟩
    rw [(chatStreamPhase_sent env now fetch st
      (ChatRoute.buildPrompt s (some items)) sdk hclient hcreate hres).1,
      buildPrompt_eq_spec]
  · refine ⟨ChatRoute.chatStreamPhase env now fetch st
      (ChatRoute.buildPrompt s none) sdk,
      chatHandler_stream_none env now fetch st s sdk hs, ?_⟩
    rw [(chatStreamPhase_sent env now fetch st
      (ChatRoute.buildPrompt s none) sdk hclient hcreate hres).1]
    rfl

/-- Witness for C4: the spec scenario — history user `first`, assistant
`reply`, message `follow up` — transmits exactly the three-line prompt. -/
theorem chat_prompt_matches_spec_witness :
    (∃ r, ChatRoute.chatHandler ⟨none, none, none⟩ 0 .nullResult ⟨false, none⟩
        ⟨some (.vstr "follow up"), some (.varr
          [.vobj [("role", .vstr "user"), ("content", .vstr "first")],
           .vobj [("role", .vstr "assistant"), ("content", .vstr "reply")]])⟩
        ⟨none, none, [], .idle⟩ = .stream r ∧
      r.promptSent = some (specPrompt "follow up"
        ([JVal.vobj [("role", .vstr "user"), ("content", .vstr "first")],
          JVal.vobj [("role", .vstr "assistant"), ("content", .vstr "reply")]].map
          extractHistoryItem))) ∧
    specPrompt "follow up"
        ([JVal.vobj [("role", .vstr "user"), ("content", .vstr "first")],
          JVal.vobj [("role", .vstr "assistant"), ("content", .vstr "reply")]].map
          extractHistoryItem) =
      "user: first\nassistant: reply\nuser: follow up" :=
  ⟨(chat_prompt_matches_spec ⟨none, none, none⟩ 0 .nullResult ⟨false, none⟩
      ⟨none, none, [], .idle⟩ "follow up"
      [.vobj [("role", .vstr "user"), ("content", .vstr "first")],
       .vobj [("role", .vstr "assistant"), ("content", .vstr "reply")]]
      (by decide) (by decide) rfl rfl ⟨{ streaming := true }, rfl⟩).1,
   by decide⟩

/-- Claim C7: with a valid message, a non-array history is rejected with 400
and a message mentioning `array`, and an array containing a malformed item
is rejected with 400 and a message mentioning `role`; both rejections are
JSON responses, never an event stream. -/
theorem chat_invalid_history_rejected
    (env : Env) (now : Int) (fetch : ModelConfig.FetchResult)
    (st : ModelConfig.TokenState) (sdk : ChatRoute.SdkScript)
    (s : String) (h : JVal) (hs : jsLength (jsTrim s) ≠ 0) :
    ((∀ items, h ≠ JVal.varr items) →
      ChatRoute.chatHandler env now fetch st ⟨some (.vstr s), some h⟩ sdk =
        .json 400 ChatRoute.historyArrayMsg ∧
      jsIncludes ChatRoute.historyArrayMsg "array" = true ∧
      ChatRoute.responseContentType
        (ChatRoute.chatHandler env now fetch st ⟨some (.vstr s), some h⟩ sdk) =
        "application/json") ∧
    (∀ items, h = JVal.varr items →
      items.all ChatRoute.isValidHistoryItem = false →
      ChatRoute.chatHandler env now fetch st ⟨some (.vstr s), some h⟩ sdk =
        .json 400 ChatRoute.historyItemMsg ∧
      jsIncludes ChatRoute.historyItemMsg "role" = true ∧
      ChatRoute.responseContentType
        (ChatRoute.chatHandler env now fetch st ⟨some (.vstr s), some h⟩ sdk) =
        "application/json") := by
  constructor
  · intro hna
    have heq : ChatRoute.chatHandler env now fetch st
        ⟨some (.vstr s), some h⟩ sdk = .json 400 ChatRoute.historyArrayMsg := by
      unfold ChatRoute.chatHandler
      dsimp only
      rw [if_neg hs]
      cases h with
      | varr items => exact absurd rfl (hna items)
      | vnull => rfl
      | vbool b => rfl
      | vnum n => rfl
      | vstr s2 => rfl
      | vobj fields => rfl
    exact ⟨heq, by decide, by rw [heq]; rfl⟩
  · intro items hitems hbad
    subst hitems
    have heq : ChatRoute.chatHandler env now fetch st
        ⟨some (.vstr s), some (.varr items)⟩ sdk =
        .json 400 ChatRoute.historyItemMsg := by
      unfold ChatRoute.chatHandler
      dsimp only
      rw [if_neg hs, if_neg (by simp [hbad])]
    exact ⟨heq, by decide, by rw [heq]; rfl⟩

/-- Witness for C7: a string history and a history with a `system` role. -/
theorem chat_invalid_history_rejected_witness :
    (ChatRoute.chatHandler ⟨none, none, none⟩ 0 .nullResult ⟨false, none⟩
        ⟨some (.vstr "hi"), some (.vstr "bad")⟩ ⟨none, none, [], .idle⟩ =
      .json 400 ChatRoute.historyArrayMsg ∧
      jsIncludes ChatRoute.historyArrayMsg "array" = true ∧
      ChatRoute.responseContentType
        (ChatRoute.chatHandler ⟨none, none, none⟩ 0 .nullResult ⟨false, none⟩
          ⟨some (.vstr "hi"), some (.vstr "bad")⟩ ⟨none, none, [], .idle⟩) =
        "application/json") ∧
    (ChatRoute.chatHandler ⟨none, none, none⟩ 0 .nullResult ⟨false, none⟩
        ⟨some (.vstr "hi"),
          some (.varr [.vobj [("role", .vstr "system"), ("content", .vstr "x")]])⟩
        ⟨none, none, [], .idle⟩ =
      .json 400 ChatRoute.historyItemMsg ∧
      jsIncludes ChatRoute.historyItemMsg "role" = true ∧
      ChatRoute.responseContentType
        (ChatRoute.chatHandler ⟨none, none, none⟩ 0 .nullResult ⟨false, none⟩
          ⟨some (.vstr "hi"),
            some (.varr [.vobj [("role", .vstr "system"), ("content", .vstr "x")]])⟩
          ⟨none, none, [], .idle⟩) = "application/json") :=
  ⟨(chat_invalid_history_rejected ⟨none, none, none⟩ 0 .nullResult
      ⟨false, none⟩ ⟨none, none, [], .idle⟩ "hi" (.vstr "bad") (by decide)).1
      (fun items hcontra => JVal.noConfusion hcontra),
   (chat_invalid_history_rejected ⟨none, none, none⟩ 0 .nullResult
      ⟨false, none⟩ ⟨none, none, [], .idle⟩ "hi"
      (.varr [.vobj [("role", .vstr "system"), ("content", .vstr "x")]])
      (by decide)).2
      [.vobj [("role", .vstr "system"), ("content", .vstr "x")]] rfl (by decide)⟩

/-- Claim C9: a message or text consisting only of whitespace characters is
rejected with 400 and the non-empty-string message, exactly as the empty
string is — emptiness is judged after trimming. -/
theorem blank_strings_rejected
    (env : Env) (now : Int) (fetch : ModelConfig.FetchResult)
    (st : ModelConfig.TokenState) (sdk : ChatRoute.SdkScript)
    (ssdk : SummarizeRoute.SummarizeSdk) (s : String)
    (hws : ∀ c ∈ s.data, jsWhitespace c = true) :
    ChatRoute.chatHandler env now fetch st ⟨some (.vstr s), none⟩ sdk =
      .json 400 ChatRoute.messageNonEmptyMsg ∧
    SummarizeRoute.summarizeHandler env now fetch st (some (.vstr s)) ssdk =
      ⟨.failure 400 SummarizeRoute.textNonEmptyMsg, false⟩ ∧
    ChatRoute.chatHandler env now fetch st ⟨some (.vstr s), none⟩ sdk =
      ChatRoute.chatHandler env now fetch st ⟨some (.vstr ""), none⟩ sdk ∧
    SummarizeRoute.summarizeHandler env now fetch st (some (.vstr s)) ssdk =
      SummarizeRoute.summarizeHandler env now fetch st (some (.vstr "")) ssdk := by
  have h0 : jsLength (jsTrim s) = 0 := by
    show (jsTrimList s.data).length = 0
    rw [jsTrimList_of_all_ws s.data hws]
    rfl
  have hchat : ChatRoute.chatHandler env now fetch st
      ⟨some (.vstr s), none⟩ sdk = .json 400 ChatRoute.messageNonEmptyMsg := by
    unfold ChatRoute.chatHandler
    dsimp only
    rw [if_pos h0]
  have hsumm : SummarizeRoute.summarizeHandler env now fetch st
      (some (.vstr s)) ssdk =
      ⟨.failure 400 SummarizeRoute.textNonEmptyMsg, false⟩ := by
    unfold SummarizeRoute.summarizeHandler
    dsimp only
    rw [if_pos h0]
  have hchatE : ChatRoute.chatHandler env now fetch st
      ⟨some (.vstr ""), none⟩ sdk = .json 400 ChatRoute.messageNonEmptyMsg := by
    unfold ChatRoute.chatHandler
    dsimp only
    rw [if_pos (show jsLength (jsTrim "") = 0 by rfl)]
  have hsummE : SummarizeRoute.summarizeHandler env now fetch st
      (some (.vstr "")) ssdk =
      ⟨.failure 400 SummarizeRoute.textNonEmptyMsg, false⟩ := by
    unfold SummarizeRoute.summarizeHandler
    dsimp only
    rw [if_pos (show jsLength (jsTrim "") = 0 by rfl)]
  exact ⟨hchat, hsumm, hchat.trans hchatE.symm, hsumm.trans hsummE.symm⟩

/-- Witness for C9: three spaces are rejected like the empty string. -/
theorem blank_strings_rejected_witness :
    ChatRoute.chatHandler ⟨none, none, none⟩ 0 .nullResult ⟨false, none⟩
        ⟨some (.vstr "   "), none⟩ ⟨none, none, [], .idle⟩ =
      .json 400 ChatRoute.messageNonEmptyMsg ∧
    SummarizeRoute.summarizeHandler ⟨none, none, none⟩ 0 .nullResult
        ⟨false, none⟩ (some (.vstr "   ")) ⟨none, none, .result none⟩ =
      ⟨.failure 400 SummarizeRoute.textNonEmptyMsg, false⟩ ∧
    ChatRoute.chatHandler ⟨none, none, none⟩ 0 .nullResult ⟨false, none⟩
        ⟨some (.vstr "   "), none⟩ ⟨none, none, [], .idle⟩ =
      ChatRoute.chatHandler ⟨none, none, none⟩ 0 .nullResult ⟨false, none⟩
        ⟨some (.vstr ""), none⟩ ⟨none, none, [], .idle⟩ ∧
    SummarizeRoute.summarizeHandler ⟨none, none, none⟩ 0 .nullResult
        ⟨false, none⟩ (some (.vstr "   ")) ⟨none, none, .result none⟩ =
      SummarizeRoute.summarizeHandler ⟨none, none, none⟩ 0 .nullResult
        ⟨false, none⟩ (some (.vstr "")) ⟨none, none, .result none⟩ :=
  blank_strings_rejected ⟨none, none, none⟩ 0 .nullResult ⟨false, none⟩
    ⟨none, none, [], .idle⟩ ⟨none, none, .result none⟩ "   " (by decide)

/-- The string of `n` letters `a`, used to exercise the length bound. -/
def aText (n : Nat) : String := ⟨List.replicate n 'a'⟩

/-- Claim C6: a summarize text of exactly 50000 characters passes the length
validation and yields 200 on a successful upstream result; one of 50001
characters yields 413 with a message containing `50000`, independently of
every collaborator and before any session is created. -/
theorem summarize_length_boundary
    (env : Env) (now : Int) (fetch : ModelConfig.FetchResult)
    (st : ModelConfig.TokenState) (sdk : SummarizeRoute.SummarizeSdk)
    (t50 t51 : String) (c : Option String)
    (h50 : t50.data = List.replicate 50000 'a')
    (h51 : t51.data = List.replicate 50001 'a')
    (hp : (env.modelProvider == some "azure") = false)
    (hclient : sdk.clientError = none) (hcreate : sdk.createError = none)
    (hout : sdk.outcome = .result c) :
    SummarizeRoute.summarizeHandler env now fetch st (some (.vstr t50)) sdk =
      ⟨.success 200 (c.getD ""), true⟩ ∧
    (∀ (env2 : Env) (now2 : Int) (fetch2 : ModelConfig.FetchResult)
        (st2 : ModelConfig.TokenState) (sdk2 : SummarizeRoute.SummarizeSdk),
      SummarizeRoute.summarizeHandler env2 now2 fetch2 st2
          (some (.vstr t51)) sdk2 =
        ⟨.failure 413 SummarizeRoute.textTooLongMsg, false⟩) ∧
    jsIncludes SummarizeRoute.textTooLongMsg "50000" = true := by
  have hlen50 : jsLength t50 = 50000 := by
    show t50.data.length = 50000
    rw [h50, List.length_replicate]
  have htrim50 : jsLength (jsTrim t50) = 50000 := by
    show (jsTrimList t50.data).length = 50000
    rw [h50, jsTrimList_replicate_a, List.length_replicate]
  have hlen51 : jsLength t51 = 50001 := by
    show t51.data.length = 50001
    rw [h51, List.length_replicate]
  have htrim51 : jsLength (jsTrim t51) = 50001 := by
    show (jsTrimList t51.data).length = 50001
    rw [h51, jsTrimList_replicate_a, List.length_replicate]
  refine ⟨?_, ?_, by decide⟩
  · unfold SummarizeRoute.summarizeHandler
    dsimp only
    rw [if_neg (by rw [htrim50]; decide), if_neg (by rw [hlen50]; decide),
      hclient]
    dsimp only
    rw [getSessionOptions_non_azure_ok env now fetch st none hp]
    dsimp only
    rw [hcreate]
    dsimp only
    rw [hout]
  · intro env2 now2 fetch2 st2 sdk2
    unfold SummarizeRoute.summarizeHandler
    dsimp only
    rw [if_neg (by rw [htrim51]; decide), if_pos (by rw [hlen51]; decide)]

/-- Witness for C6: the concrete 50000- and 50001-character texts. -/
theorem summarize_length_boundary_witness :
    (aText 50000).data = List.replicate 50000 'a' ∧
    SummarizeRoute.summarizeHandler ⟨none, none, none⟩ 0 .nullResult
        ⟨false, none⟩ (some (.vstr (aText 50000)))
        ⟨none, none, .result (some "S")⟩ =
      ⟨.success 200 "S", true⟩ ∧
    SummarizeRoute.summarizeHandler ⟨none, none, none⟩ 0 .nullResult
        ⟨false, none⟩ (some (.vstr (aText 50001)))
        ⟨none, none, .result (some "S")⟩ =
      ⟨.failure 413 SummarizeRoute.textTooLongMsg, false⟩ ∧
    jsIncludes SummarizeRoute.textTooLongMsg "50000" = true :=
  ⟨rfl,
   (summarize_length_boundary ⟨none, none, none⟩ 0 .nullResult ⟨false, none⟩
     ⟨none, none, .result (some "S")⟩ (aText 50000) (aText 50001) (some "S")
     rfl rfl rfl rfl rfl rfl).1,
   (summarize_length_boundary ⟨none, none, none⟩ 0 .nullResult ⟨false, none⟩
     ⟨none, none, .result (some "S")⟩ (aText 50000) (aText 50001) (some "S")
     rfl rfl rfl rfl rfl rfl).2.1 ⟨none, none, none⟩ 0 .nullResult
     ⟨false, none⟩ ⟨none, none, .result (some "S")⟩,
   (summarize_length_boundary ⟨none, none, none⟩ 0 .nullResult ⟨false, none⟩
     ⟨none, none, .result (some "S")⟩ (aText 50000) (aText 50001) (some "S")
     rfl rfl rfl rfl rfl rfl).2.2⟩

lemma visibleActions_endR :
    ChatRoute.visibleActions [ChatRoute.Action.endResponse] =
      [ChatRoute.Action.endResponse] := rfl

lemma visibleActions_destroy (d : Bool) :
    ChatRoute.visibleActions [ChatRoute.Action.destroyCall d] = [] := rfl

lemma visibleActions_json (status : Nat) (body : String) :
    ChatRoute.visibleActions [ChatRoute.Action.jsonResponse status body] =
      [ChatRoute.Action.jsonResponse status body] := rfl

lemma stream_trace_facts (fs : List ChatRoute.Frame) (created d : Bool) :
    ChatRoute.visibleActions ((fs.map ChatRoute.Action.writeFrame) ++
        [ChatRoute.Action.endResponse] ++
        (if created then [ChatRoute.Action.destroyCall d] else [])) =
      (fs.map ChatRoute.Action.writeFrame) ++ [ChatRoute.Action.endResponse] ∧
    ((fs.map ChatRoute.Action.writeFrame) ++ [ChatRoute.Action.endResponse] ++
        (if created then [ChatRoute.Action.destroyCall d] else [])).countP
        ChatRoute.isDestroyCall = (if created then 1 else 0) ∧
    ((fs.map ChatRoute.Action.writeFrame) ++ [ChatRoute.Action.endResponse] ++
        (if created then [ChatRoute.Action.destroyCall d] else [])).filter
        ChatRoute.isDestroyCall =
      (if created then [ChatRoute.Action.destroyCall d] else []) := by
  cases created <;> refine ⟨?_, ?_, ?_⟩ <;>
    simp [visibleActions_append, visibleActions_writeFrames, visibleActions_endR,
      visibleActions_destroy, List.countP_append, countP_destroy_writeFrames,
      List.filter_append, filter_destroy_writeFrames, ChatRoute.visibleActions,
      ChatRoute.isDestroyCall, List.countP_cons, List.filter_cons]

lemma json_trace_facts (status : Nat) (body : String) (created d : Bool) :
    ChatRoute.visibleActions ([ChatRoute.Action.jsonResponse status body] ++
        (if created then [ChatRoute.Action.destroyCall d] else [])) =
      [ChatRoute.Action.jsonResponse status body] ∧
    ([ChatRoute.Action.jsonResponse status body] ++
        (if created then [ChatRoute.Action.destroyCall d] else [])).countP
        ChatRoute.isDestroyCall = (if created then 1 else 0) ∧
    ([ChatRoute.Action.jsonResponse status body] ++
        (if created then [ChatRoute.Action.destroyCall d] else [])).filter
        ChatRoute.isDestroyCall =
      (if created then [ChatRoute.Action.destroyCall d] else []) := by
  cases created <;> exact ⟨rfl, rfl, rfl⟩

/-- Claim C8: on every exit path of the chat and summarize handlers, the
caller-visible actions are identical whether or not the destroy fails, the
`finally` destroy attempt happens exactly when a session was created, and
every destroy attempt comes strictly after the response actions — so a
release failure is never surfaced to the caller and cannot alter the
already-finalised response. -/
theorem session_release_on_all_paths
    (env : Env) (now : Int) (fetch : ModelConfig.FetchResult)
    (st : ModelConfig.TokenState) (req : ChatRoute.ChatRequest)
    (sdk : ChatRoute.SdkScript) (text : Option JVal)
    (ssdk : SummarizeRoute.SummarizeSdk) (d1 d2 : Bool) :
    ChatRoute.visibleActions (ChatRoute.chatTrace env now fetch st req sdk d1) =
      ChatRoute.visibleActions (ChatRoute.chatTrace env now fetch st req sdk d2) ∧
    (ChatRoute.chatTrace env now fetch st req sdk d1).countP
        ChatRoute.isDestroyCall =
      (if ChatRoute.sessionWasCreated
          (ChatRoute.chatHandler env now fetch st req sdk) then 1 else 0) ∧
    ChatRoute.chatTrace env now fetch st req sdk d1 =
      ChatRoute.visibleActions (ChatRoute.chatTrace env now fetch st req sdk d1) ++
        (ChatRoute.chatTrace env now fetch st req sdk d1).filter
          ChatRoute.isDestroyCall ∧
    ChatRoute.visibleActions
        (SummarizeRoute.summarizeTrace env now fetch st text ssdk d1) =
      ChatRoute.visibleActions
        (SummarizeRoute.summarizeTrace env now fetch st text ssdk d2) ∧
    (SummarizeRoute.summarizeTrace env now fetch st text ssdk d1).countP
        ChatRoute.isDestroyCall =
      (if (SummarizeRoute.summarizeHandler env now fetch st text ssdk).sessionCreated
        then 1 else 0) ∧
    SummarizeRoute.summarizeTrace env now fetch st text ssdk d1 =
      ChatRoute.visibleActions
          (SummarizeRoute.summarizeTrace env now fetch st text ssdk d1) ++
        (SummarizeRoute.summarizeTrace env now fetch st text ssdk d1).filter
          ChatRoute.isDestroyCall := by
  have hchat : ChatRoute.visibleActions
      (ChatRoute.chatTrace env now fetch st req sdk d1) =
        ChatRoute.visibleActions (ChatRoute.chatTrace env now fetch st req sdk d2) ∧
      (ChatRoute.chatTrace env now fetch st req sdk d1).countP
          ChatRoute.isDestroyCall =
        (if ChatRoute.sessionWasCreated
            (ChatRoute.chatHandler env now fetch st req sdk) then 1 else 0) ∧
      ChatRoute.chatTrace env now fetch st req sdk d1 =
        ChatRoute.visibleActions (ChatRoute.chatTrace env now fetch st req sdk d1) ++
          (ChatRoute.chatTrace env now fetch st req sdk d1).filter
            ChatRoute.isDestroyCall := by
    cases hresp : ChatRoute.chatHandler env now fetch st req sdk with
    | json status msg =>
        have htr : ∀ d, ChatRoute.chatTrace env now fetch st req sdk d =
            [ChatRoute.Action.jsonResponse status msg] := by
          intro d
          unfold ChatRoute.chatTrace
          rw [hresp]
        rw [htr d1, htr d2]
        exact ⟨rfl, rfl, rfl⟩
    | stream r =>
        have htr : ∀ d, ChatRoute.chatTrace env now fetch st req sdk d =
            (r.frames.map ChatRoute.Action.writeFrame) ++
              [ChatRoute.Action.endResponse] ++
              (if r.sessionCreated then [ChatRoute.Action.destroyCall d] else []) := by
          intro d
          unfold ChatRoute.chatTrace
          rw [hresp]
        rw [htr d1, htr d2]
        refine ⟨?_, ?_, ?_⟩
        · rw [(stream_trace_facts r.frames r.sessionCreated d1).1,
            (stream_trace_facts r.frames r.sessionCreated d2).1]
        · rw [(stream_trace_facts r.frames r.sessionCreated d1).2.1]
          rfl
        · rw [(stream_trace_facts r.frames r.sessionCreated d1).1,
            (stream_trace_facts r.frames r.sessionCreated d1).2.2]
  have hsumm : ChatRoute.visibleActions
      (SummarizeRoute.summarizeTrace env now fetch st text ssdk d1) =
        ChatRoute.visibleActions
          (SummarizeRoute.summarizeTrace env now fetch st text ssdk d2) ∧
      (SummarizeRoute.summarizeTrace env now fetch st text ssdk d1).countP
          ChatRoute.isDestroyCall =
        (if (SummarizeRoute.summarizeHandler env now fetch st text ssdk).sessionCreated
          then 1 else 0) ∧
      SummarizeRoute.summarizeTrace env now fetch st text ssdk d1 =
        ChatRoute.visibleActions
            (SummarizeRoute.summarizeTrace env now fetch st text ssdk d1) ++
          (SummarizeRoute.summarizeTrace env now fetch st text ssdk d1).filter
            ChatRoute.isDestroyCall := by
    cases hresp : SummarizeRoute.summarizeHandler env now fetch st text ssdk with
    | mk resp created =>
      cases resp with
      | success s2 sm =>
          have htr : ∀ d,
              SummarizeRoute.summarizeTrace env now fetch st text ssdk d =
                [ChatRoute.Action.jsonResponse s2 sm] ++
                  (if created then [ChatRoute.Action.destroyCall d] else []) := by
            intro d
            unfold SummarizeRoute.summarizeTrace
            rw [hresp]
          rw [htr d1, htr d2]
          refine ⟨?_, ?_, ?_⟩
          · rw [(json_trace_facts s2 sm created d1).1,
              (json_trace_facts s2 sm created d2).1]
          · rw [(json_trace_facts s2 sm created d1).2.1]
          · rw [(json_trace_facts s2 sm created d1).1,
              (json_trace_facts s2 sm created d1).2.2]
      | failure s2 m =>
          have htr : ∀ d,
              SummarizeRoute.summarizeTrace env now fetch st text ssdk d =
                [ChatRoute.Action.jsonResponse s2 m] ++
                  (if created then [ChatRoute.Action.destroyCall d] else []) := by
            intro d
            unfold SummarizeRoute.summarizeTrace
            rw [hresp]
          rw [htr d1, htr d2]
          refine ⟨?_, ?_, ?_⟩
          · rw [(json_trace_facts s2 m created d1).1,
              (json_trace_facts s2 m created d2).1]
          · rw [(json_trace_facts s2 m created d1).2.1]
          · rw [(json_trace_facts s2 m created d1).1,
              (json_trace_facts s2 m created d1).2.2]
  exact ⟨hchat.1, hchat.2.1, hchat.2.2, hsumm.1, hsumm.2.1, hsumm.2.2⟩

end CopilotService
